import Mathlib

/-!
Shallow embedding of `test_util/launch_cli.py` (DC/OS Launch CLI orchestrator).

Documents (YAML configs, JSON artifacts, `os.environ`) are modelled as
association lists from string keys to string values; nested values such as
`provider_info` are opaque to the orchestrator, so a flat string value
suffices.  The filesystem is an association list from paths to file data.
Provider launchers and the launcher registry are external collaborators and
enter as parameters (a `World`).  Errors are the exceptions `main` interacts
with: `LauncherError(kind, msg)` and `YamlParseError(msg)`.
-/

/-- A document: a mapping from string keys to (opaque) string values. -/
abbrev Doc := List (String × String)

/-- Python `doc[k]`; in the orchestrator every subscript is guarded by a
prior `check_keys`, so the default branch is unreachable there. -/
def Doc.get (d : Doc) (k : String) : String :=
  (d.lookup k).getD ""

/-- The two exception classes caught by `main`:
`LauncherError(kind, msg)` from `test_util.launch` and
`YamlParseError(msg)` from `pkgpanda.util`. -/
inductive Err where
  | launcherError (kind : String) (msg : String)
  | yamlParseError (msg : String)
deriving DecidableEq, Repr

/-- Contents of a file on disk: a parsable document, or unparsable bytes. -/
inductive FileData where
  | doc (d : Doc)
  | garbage (raw : String)
deriving DecidableEq, Repr

/-- The filesystem: association list from paths to file data.
`os.path.exists p` is `(fs.lookup p).isSome`. -/
abbrev Fs := List (String × FileData)

/-- Modelled from the spec: `pkgpanda.util.write_json` (not under src/) —
the Artifact Store write; persists a document at a path. -/
def write_json (fs : Fs) (path : String) (d : Doc) : Fs :=
  (path, FileData.doc d) :: fs

/-- Modelled from the spec: `pkgpanda.util.load_yaml` (not under src/) —
reads and parses a YAML document, failing with a ParseError-kind error
(`YamlParseError`) on a missing or malformed file. -/
def load_yaml (fs : Fs) (path : String) : Except Err Doc :=
  match fs.lookup path with
  | some (FileData.doc d) => Except.ok d
  | some (FileData.garbage _) => Except.error (.yamlParseError ("unable to parse " ++ path))
  | none => Except.error (.yamlParseError ("unable to read " ++ path))

/-- Modelled from the spec: `pkgpanda.util.load_json` (not under src/) —
reads and parses a JSON document; per the spec error taxonomy a malformed
or missing artifact surfaces as a ParseError-kind failure. -/
def load_json (fs : Fs) (path : String) : Except Err Doc :=
  match fs.lookup path with
  | some (FileData.doc d) => Except.ok d
  | some (FileData.garbage _) => Except.error (.launcherError "ParseError" ("unable to parse " ++ path))
  | none => Except.error (.launcherError "ParseError" ("unable to read " ++ path))

/-- The required keys of `d` that are absent (pure set difference, §4.1). -/
def missing_keys (d : Doc) (keys : List String) : List String :=
  keys.filter (fun k => (d.lookup k).isNone)

/-- Modelled from the spec: `test_util.launch.check_keys` (not under src/) —
fails with a MissingKeys-kind error naming every missing key. -/
def check_keys (d : Doc) (keys : List String) : Except Err Unit :=
  if missing_keys d keys = [] then Except.ok ()
  else Except.error (.launcherError "MissingKeys"
    ("missing keys: " ++ String.intercalate ", " (missing_keys d keys)))

/-- A provider launcher (§4.3): the five lifecycle operations.  `test`
returns the test runner exit status. -/
structure Launcher where
  create : Doc → Except Err Doc
  wait : Doc → Except Err Unit
  describe : Doc → Except Err String
  test : Doc → String → Except Err Int
  delete : Doc → Except Err Unit

/-- The external collaborators of the orchestrator: the launcher registry.
Modelled from the spec: `test_util.launch.get_launcher` (not under src/) —
resolves a provider type and parameters to a launcher, failing with an
UnsupportedProvider-kind error on an unknown type. -/
structure World where
  getLauncher : String → String → Except Err Launcher

/-- Python `str.upper()` (ASCII case folding, as exercised by the CLI). -/
def str_upper (s : String) : String := String.mk (s.data.map Char.toUpper)

/-- Python `sep in s` for a one-character separator. -/
def str_contains (s : String) (c : Char) : Bool := s.data.contains c

/-- Helper for `py_split`: split a character list at every separator.
Always returns at least one group (the empty split is `[[]]`, matching
Python, where `''.split(',') == ['']`). -/
def split_chars (sep : Char) : List Char → List (List Char)
  | [] => [[]]
  | c :: cs =>
    if c = sep then [] :: split_chars sep cs
    else
      match split_chars sep cs with
      | [] => [[c]]
      | g :: gs => (c :: g) :: gs

/-- Python `s.split(sep)` for a one-character separator. -/
def py_split (s : String) (sep : Char) : List String :=
  (split_chars sep s.data).map String.mk

/-- Python `' '.join(xs)`. -/
def join_str (sep : String) : List String → String
  | [] => ""
  | [x] => x
  | x :: y :: xs => x ++ sep ++ join_str sep (y :: xs)

/-- Result of `_handle_logging`: the root log level that was configured and
the threshold installed on the noisy dependency loggers (botocore, boto3),
`none` when dampening was skipped. -/
structure LogConfig where
  level : Nat
  noisyLevel : Option Nat
deriving DecidableEq, Repr

/-- `_handle_logging` (src lines 46-64).  Numeric levels are the Python
`logging` constants: CRITICAL=50, ERROR=40, WARNING=30, INFO=20, DEBUG=10. -/
def handle_logging (log_level_str : String) : Except Err LogConfig :=
  match
    (if log_level_str = "CRITICAL" then some 50
     else if log_level_str = "ERROR" then some 40
     else if log_level_str = "WARNING" then some 30
     else if log_level_str = "INFO" then some 20
     else if log_level_str = "DEBUG" ∨ log_level_str = "TRACE" then some 10
     else none) with
  | none => Except.error (.launcherError "InvalidOption"
      (log_level_str ++ " is not a valid log level"))
  | some log_level =>
    if log_level_str = "TRACE" ∨ log_level_str = "CRITICAL" then
      Except.ok ⟨log_level, none⟩
    else
      Except.ok ⟨log_level, some (log_level + 10)⟩

/-- The docopt default for `--log-level` (usage string, `[default: info]`). -/
def defaultLogLevel : String := "info"

/-- One phase per invocation (docopt guarantees exactly one command). -/
inductive Cmd where
  | create | wait | describe | pytest | delete
deriving DecidableEq, Repr

/-- The parsed docopt arguments consumed by `do_main`. -/
structure Args where
  cmd : Cmd
  logLevel : String
  configPath : String
  infoPath : String
  env : Option String
  pytestExtras : List String

/-- The `create` branch of `do_main` (src lines 69-76): refuse when the
info path exists, load and validate the config, resolve the launcher,
create, and persist the returned artifact. -/
def run_create (w : World) (fs : Fs) (args : Args) : Except Err Nat × Fs :=
  if (fs.lookup args.infoPath).isSome then
    (Except.error (.launcherError "InputConflict" "Target info path already exists!"), fs)
  else
    match load_yaml fs args.configPath with
    | Except.error e => (Except.error e, fs)
    | Except.ok config =>
      match check_keys config
          ["type", "provider_info", "this_is_a_temporary_config_format_do_not_put_in_production"] with
      | Except.error e => (Except.error e, fs)
      | Except.ok _ =>
        match w.getLauncher (config.get "type") (config.get "provider_info") with
        | Except.error e => (Except.error e, fs)
        | Except.ok launcher =>
          match launcher.create config with
          | Except.error e => (Except.error e, fs)
          | Except.ok artifact => (Except.ok 0, write_json fs args.infoPath artifact)

/-- The usage error raised when `--env` carries an inline assignment. -/
def envOptionErrorMsg : String :=
  "The --env option can only pass through environment variables from the " ++
  "current environment. Set variables according to the shell being used."

/-- Assembly of the pytest command (src lines 92-100): reject `=` in
`--env`, validate the allow-listed variables against the environment, then
prefix `py.test` with the assignments and append the extras. -/
def build_test_cmd (environ : Doc) (envOpt : Option String) (extras : List String) :
    Except Err String :=
  match envOpt with
  | none =>
    let test_cmd := "py.test"
    Except.ok (if extras.length > 0 then test_cmd ++ " " ++ join_str " " extras else test_cmd)
  | some envStr =>
    if str_contains envStr '=' then
      Except.error (.launcherError "OptionError" envOptionErrorMsg)
    else
      match check_keys environ (py_split envStr ',') with
      | Except.error e => Except.error e
      | Except.ok _ =>
        let var_list := py_split envStr ','
        let test_cmd :=
          join_str " " (var_list.map (fun e => e ++ "=" ++ environ.get e)) ++ " " ++ "py.test"
        Except.ok (if extras.length > 0 then test_cmd ++ " " ++ join_str " " extras else test_cmd)

/-- The pytest branch of `do_main` (src lines 91-104): build the command
and hand it to the launcher; the returned exit status is discarded and 0
is returned. -/
def run_pytest (environ : Doc) (launcher : Launcher) (info : Doc) (args : Args) :
    Except Err Nat :=
  match build_test_cmd environ args.env args.pytestExtras with
  | Except.error e => Except.error e
  | Except.ok test_cmd =>
    match launcher.test info test_cmd with
    | Except.error e => Except.error e
    | Except.ok _ => Except.ok 0

/-- The non-create phases of `do_main` (src lines 78-108): load and
validate the artifact, resolve the launcher, dispatch the phase.  No branch
writes to the filesystem (the only `write_json` in the source is in the
create branch). -/
def run_rest (w : World) (fs : Fs) (environ : Doc) (args : Args) : Except Err Nat :=
  match load_json fs args.infoPath with
  | Except.error e => Except.error e
  | Except.ok info =>
    match check_keys info ["type", "provider"] with
    | Except.error e => Except.error e
    | Except.ok _ =>
      match w.getLauncher (info.get "type") (info.get "provider") with
      | Except.error e => Except.error e
      | Except.ok launcher =>
        match args.cmd with
        | Cmd.wait =>
          match launcher.wait info with
          | Except.error e => Except.error e
          | Except.ok _ => Except.ok 0
        | Cmd.describe =>
          match launcher.describe info with
          | Except.error e => Except.error e
          | Except.ok _ => Except.ok 0
        | Cmd.pytest => run_pytest environ launcher info args
        | Cmd.delete =>
          match launcher.delete info with
          | Except.error e => Except.error e
          | Except.ok _ => Except.ok 0
        | Cmd.create => Except.ok 0   -- unreachable: do_main routes create to run_create

/-- `do_main` (src lines 67-108): configure logging from the uppercased
`--log-level`, then dispatch the phase.  Returns the exit value (or the
raised error) together with the resulting filesystem. -/
def do_main (w : World) (fs : Fs) (environ : Doc) (args : Args) : Except Err Nat × Fs :=
  match handle_logging (str_upper args.logLevel) with
  | Except.error e => (Except.error e, fs)
  | Except.ok _ =>
    match args.cmd with
    | Cmd.create => run_create w fs args
    | _ => (run_rest w fs environ args, fs)

/-- `repr(ex)` for the two caught exception classes: the structured error
detail printed by `main`. -/
def repr_err : Err → String
  | Err.launcherError k m => "LauncherError(" ++ k ++ ": " ++ m ++ ")"
  | Err.yamlParseError m => "YamlParseError(" ++ m ++ ")"

/-- `main` (src lines 111-119): run `do_main`, catching `LauncherError` and
`YamlParseError`; on an error print a banner and the repr of the exception
and return 1.  Result: (exit code, filesystem, lines printed on the error
path). -/
def cli_main (w : World) (fs : Fs) (environ : Doc) (args : Args) : Nat × Fs × List String :=
  match do_main w fs environ args with
  | (Except.ok code, fs') => (code, fs', [])
  | (Except.error e, fs') =>
    (1, fs', ["DC/OS Launch encountered an error!", repr_err e])

/-! ### Concrete documents, launchers and worlds for sanity checks and witnesses -/

/-- A concrete artifact document, as written by `create`. -/
def exArtifact : Doc := [("type", "fake"), ("provider", "pp")]

/-- A concrete configuration document with all three required keys. -/
def exConfig : Doc :=
  [("type", "fake"), ("provider_info", "pi"),
   ("this_is_a_temporary_config_format_do_not_put_in_production", "yes")]

/-- A concrete launcher whose `test` reports exit status 2. -/
def exLauncher : Launcher where
  create := fun _ => Except.ok exArtifact
  wait := fun _ => Except.ok ()
  describe := fun _ => Except.ok "snapshot"
  test := fun _ _ => Except.ok 2
  delete := fun _ => Except.ok ()

/-- A world that resolves every provider type to `exLauncher`. -/
def exWorld : World where
  getLauncher := fun _ _ => Except.ok exLauncher

/-- A world with an empty registry: every resolution fails. -/
def exWorldUnsupported : World where
  getLauncher := fun t _ => Except.error (Err.launcherError "UnsupportedProvider" t)

/-- A launcher whose `create` raises a ProvisionError. -/
def exLauncherFailingCreate : Launcher where
  create := fun _ => Except.error (Err.launcherError "ProvisionError" "boom")
  wait := fun _ => Except.ok ()
  describe := fun _ => Except.ok "snapshot"
  test := fun _ _ => Except.ok 2
  delete := fun _ => Except.ok ()

/-- A world whose launchers fail on `create`. -/
def exWorldFailingCreate : World where
  getLauncher := fun _ _ => Except.ok exLauncherFailingCreate

/-- A filesystem already holding an artifact at the default info path. -/
def exFsInfo : Fs := [("cluster_info.json", FileData.doc exArtifact)]

/-- A filesystem holding only a valid configuration document. -/
def fs_cfg_only : Fs := [("config.yaml", FileData.doc exConfig)]

/-- Default arguments for a phase (docopt defaults from the usage string). -/
def argsFor (c : Cmd) : Args :=
  { cmd := c, logLevel := defaultLogLevel, configPath := "config.yaml",
    infoPath := "cluster_info.json", env := none, pytestExtras := [] }

/-- A pytest invocation attempting an inline assignment in `--env`. -/
def argsPytestInlineEnv : Args :=
  { argsFor Cmd.pytest with env := some "FOO=1" }

/-- A pytest invocation allow-listing FOO and BAR via `--env`. -/
def argsPytestEnvMissing : Args :=
  { argsFor Cmd.pytest with env := some "FOO,BAR" }

/-- A pytest invocation with `--env FOO,BAR` and trailing pytest args. -/
def argsPytestFull : Args :=
  { argsFor Cmd.pytest with env := some "FOO,BAR", pytestExtras := ["-k", "smoke"] }

example : handle_logging (str_upper "info") = Except.ok ⟨20, some 30⟩ := rfl
example : handle_logging "TRACE" = Except.ok ⟨10, none⟩ := rfl
example : (handle_logging "bogus").toOption.isSome = false := rfl
example : py_split "FOO,BAR" ',' = ["FOO", "BAR"] := rfl
example : py_split "" ',' = [""] := rfl
example : do_main exWorld exFsInfo [] (argsFor Cmd.pytest) = (Except.ok 0, exFsInfo) := rfl
example :
    do_main exWorld [("config.yaml", FileData.doc exConfig)] [] (argsFor Cmd.create) =
      (Except.ok 0, [("cluster_info.json", FileData.doc exArtifact),
                     ("config.yaml", FileData.doc exConfig)]) := rfl

/-! ### Helper lemmas -/

lemma str_append_assoc (a b c : String) : a ++ b ++ c = a ++ (b ++ c) := by
  rcases a with ⟨as⟩; rcases b with ⟨bs⟩; rcases c with ⟨cs⟩
  show String.mk (as ++ bs ++ cs) = String.mk (as ++ (bs ++ cs))
  rw [List.append_assoc]

lemma split_chars_ne_nil (sep : Char) (l : List Char) : split_chars sep l ≠ [] := by
  induction l with
  | nil => simp [split_chars]
  | cons c cs ih =>
    unfold split_chars
    split
    · simp
    · split
      · simp
      · simp

lemma py_split_ne_nil (s : String) (sep : Char) : py_split s sep ≠ [] := by
  unfold py_split
  intro h
  exact split_chars_ne_nil sep s.data (List.map_eq_nil_iff.mp h)

lemma join_str_cons (sep x : String) (y : String) (ys : List String) :
    join_str sep (x :: y :: ys) = x ++ sep ++ join_str sep (y :: ys) := rfl

lemma join_str_append (sep : String) (xs ys : List String) (hx : xs ≠ []) (hy : ys ≠ []) :
    join_str sep (xs ++ ys) = join_str sep xs ++ sep ++ join_str sep ys := by
  induction xs with
  | nil => exact absurd rfl hx
  | cons x xs ih =>
    cases xs with
    | nil =>
      cases ys with
      | nil => exact absurd rfl hy
      | cons y ys => rfl
    | cons x' xs' =>
      have h1 : (x :: x' :: xs') ++ ys = x :: ((x' :: xs') ++ ys) := rfl
      rw [h1]
      have h2 : (x' :: xs') ++ ys = x' :: (xs' ++ ys) := rfl
      rw [h2, join_str_cons, ← h2, ih (by simp), join_str_cons]
      simp [str_append_assoc]

lemma run_create_cases (w : World) (fs : Fs) (args : Args) :
    (∃ e, run_create w fs args = (Except.error e, fs)) ∨
    (∃ a, run_create w fs args = (Except.ok 0, write_json fs args.infoPath a)) := by
  unfold run_create
  split
  · exact Or.inl ⟨_, rfl⟩
  · split
    · exact Or.inl ⟨_, rfl⟩
    · split
      · exact Or.inl ⟨_, rfl⟩
      · split
        · exact Or.inl ⟨_, rfl⟩
        · split
          · exact Or.inl ⟨_, rfl⟩
          · exact Or.inr ⟨_, rfl⟩

lemma run_pytest_err (environ : Doc) (launcher : Launcher) (info : Doc) (args : Args)
    (e : Err) (hb : build_test_cmd environ args.env args.pytestExtras = Except.error e) :
    run_pytest environ launcher info args = Except.error e := by
  unfold run_pytest
  rw [hb]

lemma run_pytest_ok_zero (environ : Doc) (launcher : Launcher) (info : Doc) (args : Args)
    (n : Nat) (h : run_pytest environ launcher info args = Except.ok n) : n = 0 := by
  unfold run_pytest at h
  split at h
  · cases h
  · split at h
    · cases h
    · cases h; rfl

lemma run_rest_ok_zero (w : World) (fs : Fs) (environ : Doc) (args : Args)
    (n : Nat) (h : run_rest w fs environ args = Except.ok n) : n = 0 := by
  unfold run_rest at h
  split at h
  · cases h
  · split at h
    · cases h
    · split at h
      · cases h
      · split at h
        · split at h
          · cases h
          · cases h; rfl
        · split at h
          · cases h
          · cases h; rfl
        · exact run_pytest_ok_zero _ _ _ _ _ h
        · split at h
          · cases h
          · cases h; rfl
        · cases h; rfl

lemma do_main_fs_cases (w : World) (fs : Fs) (environ : Doc) (args : Args) :
    (do_main w fs environ args).2 = fs ∨
    (args.cmd = Cmd.create ∧
      ∃ a, do_main w fs environ args = (Except.ok 0, write_json fs args.infoPath a)) := by
  unfold do_main
  split
  · exact Or.inl rfl
  · split
    · next hcmd =>
      rcases run_create_cases w fs args with ⟨e, he⟩ | ⟨a, ha⟩
      · exact Or.inl (by rw [he])
      · exact Or.inr ⟨hcmd, a, ha⟩
    · exact Or.inl rfl

lemma do_main_ok_zero (w : World) (fs : Fs) (environ : Doc) (args : Args)
    (n : Nat) (h : (do_main w fs environ args).1 = Except.ok n) : n = 0 := by
  unfold do_main at h
  split at h
  · cases h
  · split at h
    · rcases run_create_cases w fs args with ⟨e, he⟩ | ⟨a, ha⟩
      · rw [he] at h; cases h
      · rw [ha] at h; cases h; rfl
    · exact run_rest_ok_zero _ _ _ _ _ h

/-- The six accepted (uppercased) log levels, from the usage string. -/
def validLogLevels : List String := ["CRITICAL", "ERROR", "WARNING", "INFO", "DEBUG", "TRACE"]

lemma handle_logging_shape (u : String) :
    (u ∈ validLogLevels ∧ ∃ cfg : LogConfig, handle_logging u = Except.ok cfg ∧
      (cfg.noisyLevel = none ↔ (u = "TRACE" ∨ u = "CRITICAL")) ∧
      (∀ x, cfg.noisyLevel = some x → x = cfg.level + 10)) ∨
    (u ∉ validLogLevels ∧
      handle_logging u = Except.error (Err.launcherError "InvalidOption"
        (u ++ " is not a valid log level"))) := by
  by_cases h1 : u = "CRITICAL"
  · subst h1
    exact Or.inl ⟨by decide, ⟨50, none⟩, rfl, by decide, fun x hx => by cases hx⟩
  · by_cases h2 : u = "ERROR"
    · subst h2
      exact Or.inl ⟨by decide, ⟨40, some 50⟩, rfl, by decide, fun x hx => by cases hx; rfl⟩
    · by_cases h3 : u = "WARNING"
      · subst h3
        exact Or.inl ⟨by decide, ⟨30, some 40⟩, rfl, by decide, fun x hx => by cases hx; rfl⟩
      · by_cases h4 : u = "INFO"
        · subst h4
          exact Or.inl ⟨by decide, ⟨20, some 30⟩, rfl, by decide, fun x hx => by cases hx; rfl⟩
        · by_cases h5 : u = "DEBUG"
          · subst h5
            exact Or.inl ⟨by decide, ⟨10, some 20⟩, rfl, by decide, fun x hx => by cases hx; rfl⟩
          · by_cases h6 : u = "TRACE"
            · subst h6
              exact Or.inl ⟨by decide, ⟨10, none⟩, rfl, by decide, fun x hx => by cases hx⟩
            · refine Or.inr ⟨by simp [validLogLevels, h1, h2, h3, h4, h5, h6], ?_⟩
              unfold handle_logging
              simp [h1, h2, h3, h4, h5, h6]

lemma cli_main_error (w : World) (fs : Fs) (environ : Doc) (args : Args)
    (e : Err) (h : (do_main w fs environ args).1 = Except.error e) :
    cli_main w fs environ args =
      (1, (do_main w fs environ args).2,
        ["DC/OS Launch encountered an error!", repr_err e]) := by
  unfold cli_main
  rcases hp : do_main w fs environ args with ⟨r, fs'⟩
  rw [hp] at h
  simp only at h
  subst h
  rfl


/-! ### Claim theorems -/

/-- C1: for every create invocation (with a well-formed `--log-level`, whose
handling precedes phase dispatch) where the file at `--info-path` already
exists, `do_main` fails with an InputConflict-kind error, the filesystem is
unchanged (no write to the artifact path), and the result is independent of
the world — in particular the launcher `create` operation is never
consulted. -/
theorem create_refuses_existing_info
    (w w' : World) (fs : Fs) (environ environ' : Doc) (args : Args) (cfg : LogConfig)
    (hcmd : args.cmd = Cmd.create)
    (hlog : handle_logging (str_upper args.logLevel) = Except.ok cfg)
    (hex : (fs.lookup args.infoPath).isSome = true) :
    do_main w fs environ args =
      (Except.error (Err.launcherError "InputConflict" "Target info path already exists!"), fs) ∧
    do_main w fs environ args = do_main w' fs environ' args := by
  have key : ∀ (wx : World) (ex : Doc), do_main wx fs ex args =
      (Except.error (Err.launcherError "InputConflict" "Target info path already exists!"), fs) := by
    intro wx ex
    simp [do_main, run_create, hlog, hcmd, hex]
  exact ⟨key w environ, (key w environ).trans (key w' environ').symm⟩

/-- C1 witness: a concrete create invocation against an existing
`cluster_info.json`, under two different worlds. -/
theorem create_refuses_existing_info_witness :
    do_main exWorld exFsInfo [] (argsFor Cmd.create) =
      (Except.error (Err.launcherError "InputConflict" "Target info path already exists!"),
        exFsInfo) ∧
    do_main exWorld exFsInfo [] (argsFor Cmd.create) =
      do_main exWorldUnsupported exFsInfo [] (argsFor Cmd.create) :=
  create_refuses_existing_info exWorld exWorldUnsupported exFsInfo [] []
    (argsFor Cmd.create) ⟨20, some 30⟩ rfl rfl rfl

/-- C10: during create (with a well-formed `--log-level`), the info-path
existence check strictly precedes reading and validating the configuration:
when the info path exists the failure is InputConflict for the given
filesystem, and stays InputConflict whatever file data (missing, garbage,
or a document lacking required keys) sits at `--config-path`. -/
theorem create_conflict_precedes_config_read
    (w : World) (fs : Fs) (environ : Doc) (args : Args) (cfg : LogConfig)
    (hcmd : args.cmd = Cmd.create)
    (hlog : handle_logging (str_upper args.logLevel) = Except.ok cfg)
    (hex : (fs.lookup args.infoPath).isSome = true) :
    (do_main w fs environ args).1 =
      Except.error (Err.launcherError "InputConflict" "Target info path already exists!") ∧
    ∀ fd : FileData,
      (do_main w ((args.configPath, fd) :: fs) environ args).1 =
        Except.error (Err.launcherError "InputConflict" "Target info path already exists!") := by
  have key : ∀ fs2 : Fs, (fs2.lookup args.infoPath).isSome = true →
      (do_main w fs2 environ args).1 =
        Except.error (Err.launcherError "InputConflict" "Target info path already exists!") := by
    intro fs2 hex2
    simp [do_main, run_create, hlog, hcmd, hex2]
  refine ⟨key fs hex, fun fd => key _ ?_⟩
  show (List.lookup args.infoPath ((args.configPath, fd) :: fs)).isSome = true
  rw [List.lookup]
  cases h : args.infoPath == args.configPath <;> simp [h, hex]

/-- C10 witness: the conflict error is raised both with no config file at
all and with unparsable bytes at the config path. -/
theorem create_conflict_precedes_config_read_witness :
    (do_main exWorld exFsInfo [] (argsFor Cmd.create)).1 =
      Except.error (Err.launcherError "InputConflict" "Target info path already exists!") ∧
    (do_main exWorld (("config.yaml", FileData.garbage "][") :: exFsInfo) []
        (argsFor Cmd.create)).1 =
      Except.error (Err.launcherError "InputConflict" "Target info path already exists!") :=
  ⟨(create_conflict_precedes_config_read exWorld exFsInfo [] (argsFor Cmd.create)
      ⟨20, some 30⟩ rfl rfl rfl).1,
   (create_conflict_precedes_config_read exWorld exFsInfo [] (argsFor Cmd.create)
      ⟨20, some 30⟩ rfl rfl rfl).2 (FileData.garbage "][")⟩

/-- C8: for every invocation of any phase other than create — in
particular every describe invocation — the orchestrator performs no write:
the filesystem after `do_main`, and with it the artifact document at
`--info-path`, is exactly the input filesystem. -/
theorem no_write_outside_create (w : World) (fs : Fs) (environ : Doc) (args : Args)
    (h : args.cmd ≠ Cmd.create) :
    (do_main w fs environ args).2 = fs := by
  rcases do_main_fs_cases w fs environ args with hfs | ⟨hcmd, _⟩
  · exact hfs
  · exact absurd hcmd h

/-- C8 witness: a concrete describe invocation leaves the filesystem, and
hence the artifact document, untouched. -/
theorem no_write_outside_create_witness :
    (do_main exWorld exFsInfo [] (argsFor Cmd.describe)).2 = exFsInfo :=
  no_write_outside_create exWorld exFsInfo [] (argsFor Cmd.describe) (by decide)

/-- C9: when a create invocation fails with any error (the launcher's
`create` raising included), the filesystem is unchanged — the artifact is
written only from the value returned by a successful create — so an
info path absent before the failed create is still absent afterwards. -/
theorem create_failure_writes_nothing
    (w : World) (fs : Fs) (environ : Doc) (args : Args) (e : Err)
    (_hcmd : args.cmd = Cmd.create)
    (herr : (do_main w fs environ args).1 = Except.error e) :
    (do_main w fs environ args).2 = fs ∧
    (fs.lookup args.infoPath = none →
      ((do_main w fs environ args).2).lookup args.infoPath = none) := by
  rcases do_main_fs_cases w fs environ args with hfs | ⟨_, a, ha⟩
  · exact ⟨hfs, fun hnone => by rw [hfs]; exact hnone⟩
  · rw [ha] at herr
    cases herr

/-- C9 witness: a create invocation whose launcher `create` raises a
ProvisionError writes nothing, and the info path stays absent. -/
theorem create_failure_writes_nothing_witness :
    (fs_cfg_only.lookup "cluster_info.json" = none) ∧
    (do_main exWorldFailingCreate fs_cfg_only [] (argsFor Cmd.create)).2 = fs_cfg_only ∧
    ((do_main exWorldFailingCreate fs_cfg_only [] (argsFor Cmd.create)).2).lookup
        "cluster_info.json" = none := by
  have h := create_failure_writes_nothing exWorldFailingCreate fs_cfg_only []
    (argsFor Cmd.create) (Err.launcherError "ProvisionError" "boom") rfl rfl
  exact ⟨rfl, h.1, h.2 rfl⟩

/-- C3: every failing invocation — whatever the phase and wherever the
error arose — is reported by `main` as the fixed banner line plus the
structured detail `repr(ex)`, with exit code 1 (non-zero); no error path
is silent. -/
theorem error_reporting (w : World) (fs : Fs) (environ : Doc) (args : Args) (e : Err)
    (herr : (do_main w fs environ args).1 = Except.error e) :
    (cli_main w fs environ args).1 = 1 ∧
    (cli_main w fs environ args).2.2 =
      ["DC/OS Launch encountered an error!", repr_err e] ∧
    (cli_main w fs environ args).2.2 ≠ [] := by
  rw [cli_main_error w fs environ args e herr]
  exact ⟨rfl, rfl, by simp⟩

/-- C3 witness: a describe invocation with no artifact file fails, prints
the banner plus the structured error, and exits 1. -/
theorem error_reporting_witness :
    (cli_main exWorld [] [] (argsFor Cmd.describe)).1 = 1 ∧
    (cli_main exWorld [] [] (argsFor Cmd.describe)).2.2 =
      ["DC/OS Launch encountered an error!",
        repr_err (Err.launcherError "ParseError" "unable to read cluster_info.json")] ∧
    (cli_main exWorld [] [] (argsFor Cmd.describe)).2.2 ≠ [] :=
  error_reporting exWorld [] [] (argsFor Cmd.describe)
    (Err.launcherError "ParseError" "unable to read cluster_info.json") rfl

/-- C4: the uppercased `--log-level` is accepted exactly when it is one of
critical, error, warning, info, debug, trace (case-insensitive); the
docopt default info yields level 20 with the noisy loggers dampened to 30;
trace and critical leave the noisy-dependency loggers (botocore, boto3)
undampened, every other accepted level dampens them to one step (10) above
the requested level; any other value is a hard InvalidOption failure. -/
theorem log_level_contract (s : String) :
    ((handle_logging (str_upper s)).toOption.isSome = true ↔ str_upper s ∈ validLogLevels) ∧
    handle_logging (str_upper defaultLogLevel) = Except.ok ⟨20, some 30⟩ ∧
    (∀ cfg : LogConfig, handle_logging (str_upper s) = Except.ok cfg →
      ((cfg.noisyLevel = none ↔ (str_upper s = "TRACE" ∨ str_upper s = "CRITICAL")) ∧
       ∀ x, cfg.noisyLevel = some x → x = cfg.level + 10)) ∧
    (∀ e : Err, handle_logging (str_upper s) = Except.error e →
      ∃ msg, e = Err.launcherError "InvalidOption" msg) := by
  rcases handle_logging_shape (str_upper s) with ⟨hm, cfg, hok, hiff, hstep⟩ | ⟨hm, herr⟩
  · refine ⟨⟨fun _ => hm, fun _ => ?_⟩, rfl, ?_, ?_⟩
    · rw [hok]; rfl
    · intro cfg' hok'
      rw [hok] at hok'
      cases hok'
      exact ⟨hiff, hstep⟩
    · intro e he
      rw [hok] at he
      cases he
  · refine ⟨⟨fun hsome => ?_, fun hmem => absurd hmem hm⟩, rfl, ?_, ?_⟩
    · rw [herr] at hsome
      simp [Except.toOption] at hsome
    · intro cfg hok'
      rw [herr] at hok'
      cases hok'
    · intro e he
      rw [herr] at he
      cases he
      exact ⟨_, rfl⟩

/-- C4 witness: the contract instantiated at the mixed-case level Debug. -/
theorem log_level_contract_witness :
    ((handle_logging (str_upper "Debug")).toOption.isSome = true ↔
      str_upper "Debug" ∈ validLogLevels) ∧
    handle_logging (str_upper defaultLogLevel) = Except.ok ⟨20, some 30⟩ ∧
    (∀ cfg : LogConfig, handle_logging (str_upper "Debug") = Except.ok cfg →
      ((cfg.noisyLevel = none ↔
          (str_upper "Debug" = "TRACE" ∨ str_upper "Debug" = "CRITICAL")) ∧
       ∀ x, cfg.noisyLevel = some x → x = cfg.level + 10)) ∧
    (∀ e : Err, handle_logging (str_upper "Debug") = Except.error e →
      ∃ msg, e = Err.launcherError "InvalidOption" msg) :=
  log_level_contract "Debug"

/-! ### Pytest-phase lemmas and claims -/

lemma check_keys_missing (d : Doc) (keys : List String) (v : String)
    (hv : v ∈ keys) (hmiss : d.lookup v = none) :
    ∃ msg, check_keys d keys = Except.error (Err.launcherError "MissingKeys" msg) := by
  have hm : v ∈ missing_keys d keys := by
    unfold missing_keys
    exact List.mem_filter.mpr ⟨hv, by simp [hmiss]⟩
  have hne : missing_keys d keys ≠ [] := List.ne_nil_of_mem hm
  unfold check_keys
  rw [if_neg hne]
  exact ⟨_, rfl⟩

lemma run_rest_pytest_error (w : World) (fs : Fs) (environ : Doc) (args : Args) (e : Err)
    (hcmd : args.cmd = Cmd.pytest)
    (hb : build_test_cmd environ args.env args.pytestExtras = Except.error e) :
    ∃ e', run_rest w fs environ args = Except.error e' := by
  unfold run_rest
  split
  · exact ⟨_, rfl⟩
  · split
    · exact ⟨_, rfl⟩
    · split
      · exact ⟨_, rfl⟩
      · split
        · next h => rw [hcmd] at h; cases h
        · next h => rw [hcmd] at h; cases h
        · exact ⟨e, run_pytest_err _ _ _ _ e hb⟩
        · next h => rw [hcmd] at h; cases h
        · next h => rw [hcmd] at h; cases h

lemma do_main_pytest_fails (w : World) (fs : Fs) (environ : Doc) (args : Args) (e : Err)
    (hcmd : args.cmd = Cmd.pytest)
    (hb : build_test_cmd environ args.env args.pytestExtras = Except.error e) :
    ∀ n, (do_main w fs environ args).1 ≠ Except.ok n := by
  intro n hok
  unfold do_main at hok
  split at hok
  · cases hok
  · split at hok
    · next h => rw [hcmd] at h; cases h
    · obtain ⟨e', he'⟩ := run_rest_pytest_error w fs environ args e hcmd hb
      rw [he'] at hok
      cases hok

lemma run_rest_congr_env (w : World) (fs : Fs) (environ environ' : Doc) (args : Args)
    (h : ∀ (launcher : Launcher) (info : Doc),
      run_pytest environ launcher info args = run_pytest environ' launcher info args) :
    run_rest w fs environ args = run_rest w fs environ' args := by
  unfold run_rest
  cases hl : load_json fs args.infoPath with
  | error e => simp only [hl]
  | ok info =>
    simp only [hl]
    cases hc : check_keys info ["type", "provider"] with
    | error e => simp only [hc]
    | ok u =>
      simp only [hc]
      cases hg : w.getLauncher (info.get "type") (info.get "provider") with
      | error e => simp only [hg]
      | ok launcher =>
        simp only [hg]
        cases hcm : args.cmd <;> simp only [hcm]
        case pytest => exact h launcher info

/-- C5: a pytest invocation whose `--env` value contains an `=` character
has its env handling fail with the OptionError usage error for every
possible process environment, the whole run result does not depend on the
process environment (no environment lookup can influence it), and the
invocation never succeeds. -/
theorem env_inline_assignment_rejected
    (w : World) (fs : Fs) (environ environ' : Doc) (args : Args) (s : String)
    (hcmd : args.cmd = Cmd.pytest) (hs : args.env = some s)
    (heq : str_contains s '=' = true) :
    build_test_cmd environ args.env args.pytestExtras =
      Except.error (Err.launcherError "OptionError" envOptionErrorMsg) ∧
    do_main w fs environ args = do_main w fs environ' args ∧
    (∀ n, (do_main w fs environ args).1 ≠ Except.ok n) := by
  have hb : ∀ ex : Doc, build_test_cmd ex args.env args.pytestExtras =
      Except.error (Err.launcherError "OptionError" envOptionErrorMsg) := by
    intro ex
    rw [hs]
    simp [build_test_cmd, heq]
  refine ⟨hb environ, ?_, do_main_pytest_fails w fs environ args _ hcmd (hb environ)⟩
  unfold do_main
  cases hl : handle_logging (str_upper args.logLevel) with
  | error e => simp only [hl]
  | ok cfg =>
    simp only [hl]
    cases hcm : args.cmd <;> simp only [hcm]
    case pytest =>
      have hcongr := run_rest_congr_env w fs environ environ' args (fun launcher info => by
        rw [run_pytest_err environ launcher info args _ (hb environ),
          run_pytest_err environ' launcher info args _ (hb environ')])
      rw [hcongr]
    all_goals (rw [hcm] at hcmd; cases hcmd)

/-- C5 witness: `--env FOO=1` is rejected identically under an empty and a
populated environment, and the run fails. -/
theorem env_inline_assignment_rejected_witness :
    build_test_cmd [] argsPytestInlineEnv.env argsPytestInlineEnv.pytestExtras =
      Except.error (Err.launcherError "OptionError" envOptionErrorMsg) ∧
    do_main exWorld exFsInfo [] argsPytestInlineEnv =
      do_main exWorld exFsInfo [("FOO", "1")] argsPytestInlineEnv ∧
    (∀ n, (do_main exWorld exFsInfo [] argsPytestInlineEnv).1 ≠ Except.ok n) :=
  env_inline_assignment_rejected exWorld exFsInfo [] [("FOO", "1")] argsPytestInlineEnv
    "FOO=1" rfl rfl rfl

/-- C6: a pytest invocation naming in `--env` a variable absent from the
process environment fails with a MissingKeys-kind validation error: the
env-handling step errors, the pytest branch errors for every launcher and
artifact — so no test command is built and the launcher test operation is
never invoked — and the invocation never succeeds. -/
theorem env_missing_variable_rejected
    (w : World) (fs : Fs) (environ : Doc) (args : Args) (s v : String)
    (hcmd : args.cmd = Cmd.pytest) (hs : args.env = some s)
    (hne : str_contains s '=' = false)
    (hv : v ∈ py_split s ',') (hmiss : environ.lookup v = none) :
    (∃ msg, build_test_cmd environ args.env args.pytestExtras =
      Except.error (Err.launcherError "MissingKeys" msg)) ∧
    (∀ (launcher : Launcher) (info : Doc), ∃ msg,
      run_pytest environ launcher info args =
        Except.error (Err.launcherError "MissingKeys" msg)) ∧
    (∀ n, (do_main w fs environ args).1 ≠ Except.ok n) := by
  obtain ⟨msg, hck⟩ := check_keys_missing environ (py_split s ',') v hv hmiss
  have hb : build_test_cmd environ args.env args.pytestExtras =
      Except.error (Err.launcherError "MissingKeys" msg) := by
    rw [hs]
    simp [build_test_cmd, hne, hck]
  exact ⟨⟨msg, hb⟩,
    fun launcher info => ⟨msg, run_pytest_err _ _ _ _ _ hb⟩,
    do_main_pytest_fails w fs environ args _ hcmd hb⟩

/-- C6 witness: `--env FOO,BAR` with only BAR present in the environment
fails validation with MissingKeys everywhere in the pytest pipeline. -/
theorem env_missing_variable_rejected_witness :
    (∃ msg, build_test_cmd [("BAR", "1")] argsPytestEnvMissing.env
        argsPytestEnvMissing.pytestExtras =
      Except.error (Err.launcherError "MissingKeys" msg)) ∧
    (∀ (launcher : Launcher) (info : Doc), ∃ msg,
      run_pytest [("BAR", "1")] launcher info argsPytestEnvMissing =
        Except.error (Err.launcherError "MissingKeys" msg)) ∧
    (∀ n, (do_main exWorld exFsInfo [("BAR", "1")] argsPytestEnvMissing).1 ≠
      Except.ok n) :=
  env_missing_variable_rejected exWorld exFsInfo [("BAR", "1")] argsPytestEnvMissing
    "FOO,BAR" "FOO" rfl rfl rfl (by decide) rfl

/-- The allow-listed variable names carried by `--env` (comma-split). -/
def envVars : Option String → List String
  | none => []
  | some s => py_split s ','

/-- The spec's description of the test command, stated in its own words for
the refinement comparison: the space-joined concatenation of one KEY=value
assignment per allow-listed variable (values from the process environment),
followed by the fixed `py.test` invocation, followed by the trailing
arguments verbatim. -/
def spec_test_cmd (environ : Doc) (vars extras : List String) : String :=
  join_str " " (vars.map (fun v => v ++ "=" ++ environ.get v) ++ ["py.test"] ++ extras)

lemma build_test_cmd_none_shape (environ : Doc) (extras : List String) (cmd : String)
    (hok : build_test_cmd environ none extras = Except.ok cmd) :
    cmd = spec_test_cmd environ [] extras := by
  simp only [build_test_cmd] at hok
  cases hok
  cases extras with
  | nil => rfl
  | cons x xs =>
    rw [if_pos (by simp)]
    simp only [spec_test_cmd, List.map_nil, List.nil_append, List.cons_append]
    rfl

lemma build_test_cmd_some_shape (environ : Doc) (s : String) (extras : List String)
    (cmd : String)
    (hok : build_test_cmd environ (some s) extras = Except.ok cmd) :
    cmd = spec_test_cmd environ (py_split s ',') extras := by
  simp only [build_test_cmd] at hok
  split at hok
  · cases hok
  · split at hok
    · cases hok
    · cases hok
      have hA : (py_split s ',').map (fun e => e ++ "=" ++ Doc.get environ e) ≠ [] := by
        intro hmap
        exact py_split_ne_nil s ',' (List.map_eq_nil_iff.mp hmap)
      cases extras with
      | nil =>
        show join_str " " ((py_split s ',').map (fun e => e ++ "=" ++ Doc.get environ e)) ++
          " " ++ "py.test" = _
        simp only [spec_test_cmd, List.append_nil]
        rw [join_str_append " " _ ["py.test"] hA (by simp)]
        rfl
      | cons x xs =>
        rw [if_pos (by simp)]
        simp only [spec_test_cmd]
        rw [join_str_append " " _ (x :: xs) (by simp) (by simp),
          join_str_append " " _ ["py.test"] hA (by simp)]
        rfl

/-- C7: on every pytest invocation that passes validation, the command the
orchestrator hands to the launcher test operation is exactly the spec's
shape — space-joined KEY=value assignments for the allow-listed `--env`
variables (values from the process environment), then the fixed `py.test`
invocation, then the trailing arguments verbatim — and `run_pytest` calls
the launcher test operation with precisely that command. -/
theorem pytest_command_contract
    (environ : Doc) (launcher : Launcher) (info : Doc) (args : Args) (cmd : String)
    (_hcmd : args.cmd = Cmd.pytest)
    (hok : build_test_cmd environ args.env args.pytestExtras = Except.ok cmd) :
    cmd = spec_test_cmd environ (envVars args.env) args.pytestExtras ∧
    run_pytest environ launcher info args =
      (match launcher.test info cmd with
       | Except.error e => Except.error e
       | Except.ok _ => Except.ok 0) := by
  constructor
  · rcases henv : args.env with _ | s
    · rw [henv] at hok
      exact build_test_cmd_none_shape environ args.pytestExtras cmd hok
    · rw [henv] at hok
      exact build_test_cmd_some_shape environ s args.pytestExtras cmd hok
  · unfold run_pytest
    rw [hok]

/-- C7 witness: `--env FOO,BAR` with both variables set and trailing args
`-k smoke` yields exactly `FOO=1 BAR=2 py.test -k smoke`. -/
theorem pytest_command_contract_witness :
    ("FOO=1 BAR=2 py.test -k smoke" =
      spec_test_cmd [("FOO", "1"), ("BAR", "2")] (envVars argsPytestFull.env)
        argsPytestFull.pytestExtras) ∧
    run_pytest [("FOO", "1"), ("BAR", "2")] exLauncher exArtifact argsPytestFull =
      (match exLauncher.test exArtifact "FOO=1 BAR=2 py.test -k smoke" with
       | Except.error e => Except.error e
       | Except.ok _ => Except.ok 0) :=
  pytest_command_contract [("FOO", "1"), ("BAR", "2")] exLauncher exArtifact
    argsPytestFull "FOO=1 BAR=2 py.test -k smoke" rfl rfl

/-- C2 counterexample: a pytest invocation whose launcher test operation
reports exit status 2 while the orchestrator returns exit value 0 and the
process exits 0 — the process exit code is not the test exit status. -/
theorem pytest_exit_status_not_propagated_cex :
    exLauncher.test exArtifact "py.test" = Except.ok 2 ∧
    do_main exWorld exFsInfo [] (argsFor Cmd.pytest) = (Except.ok 0, exFsInfo) ∧
    cli_main exWorld exFsInfo [] (argsFor Cmd.pytest) = (0, exFsInfo, []) ∧
    (2 : Int) ≠ (0 : Int) :=
  ⟨rfl, rfl, rfl, by decide⟩

/-- C2 amended: the exit status returned by the launcher test operation is
discarded: whenever it returns any status, the pytest branch returns exit
value 0; every successful invocation exits 0, and any setup error makes
`main` exit 1. -/
theorem pytest_exit_status_discarded
    (w : World) (fs : Fs) (environ : Doc) (args : Args)
    (launcher : Launcher) (info : Doc) (cmd : String) (s : Int)
    (_hcmd : args.cmd = Cmd.pytest)
    (hok : build_test_cmd environ args.env args.pytestExtras = Except.ok cmd)
    (htest : launcher.test info cmd = Except.ok s) :
    run_pytest environ launcher info args = Except.ok 0 ∧
    (∀ n, (do_main w fs environ args).1 = Except.ok n → n = 0) ∧
    (∀ e, (do_main w fs environ args).1 = Except.error e →
      (cli_main w fs environ args).1 = 1) := by
  refine ⟨?_, fun n hn => do_main_ok_zero w fs environ args n hn,
    fun e he => by rw [cli_main_error w fs environ args e he]⟩
  unfold run_pytest
  simp only [hok, htest]

/-- C2 witness: the amended claim at a concrete pytest invocation whose
test operation reports status 2. -/
theorem pytest_exit_status_discarded_witness :
    run_pytest [] exLauncher exArtifact (argsFor Cmd.pytest) = Except.ok 0 ∧
    (∀ n, (do_main exWorld exFsInfo [] (argsFor Cmd.pytest)).1 = Except.ok n → n = 0) ∧
    (∀ e, (do_main exWorld exFsInfo [] (argsFor Cmd.pytest)).1 = Except.error e →
      (cli_main exWorld exFsInfo [] (argsFor Cmd.pytest)).1 = 1) :=
  pytest_exit_status_discarded exWorld exFsInfo [] (argsFor Cmd.pytest)
    exLauncher exArtifact "py.test" 2 rfl rfl rfl
